import Mathlib

/-!
Verification of the message-delivery core (`message.py`): a shallow embedding
of the `Message` class hierarchy, its retry/backoff control flow in `send`,
and the kind-specific transport calls, together with theorems settling the
frozen claims about the specification.

The transport collaborator is modelled as an oracle `Nat → Outcome` giving the
outcome of the n-th transport attempt (success, or one of the three raised
error categories of `telegram.error`).  `send` is translated from the source
line by line; the event trace records every transport attempt, log warning,
sleep, and exclusive-lock acquisition/release, in program order.
-/

/-- Outcome of one kind-specific transport call (`self._send(chat_id)`):
success, or one of the three exception classes caught in `Message.send`. -/
inductive Outcome where
  | success
  | retryAfter (retry_after : Nat)
  | badRequest
  | networkError
deriving DecidableEq, Repr

/-- The `media` argument of `Message.__init__`: `None`, a single `Medium`,
or a list/tuple of `Medium` (media handles are opaque, modelled as `Nat`). -/
inductive MediaField where
  | noMedia
  | single (m : Nat)
  | multiple (ms : List Nat)
deriving DecidableEq, Repr

/-- The attribute state of a `Message` object.  `no_retry` is an `Option`
because `__init__` never assigns this attribute: `none` models the attribute
being absent (a Python read of it raises `AttributeError`); a caller may set
it afterwards, which Python permits on any instance. -/
structure Message where
  text : Option String
  media : MediaField
  parse_mode : Option String
  retries : Nat
  no_retry : Option Bool
deriving DecidableEq, Repr

/-- `Message.__init__(text, media, parse_mode)`: sets `text`, `media`,
`parse_mode` and `retries = 0`; it does not assign `no_retry`. -/
def mkMessage (text : Option String) (media : MediaField) (parse_mode : Option String) : Message :=
  ⟨text, media, parse_mode, 0, none⟩

/-- Constructing a `Message` without passing `parse_mode`: the parameter
defaults to the string `'HTML'` in the source. -/
def mkMessageDefault (text : Option String) (media : MediaField) : Message :=
  mkMessage text media (some "HTML")

/-- A caller-side attribute assignment `msg.no_retry = b` (the attribute is
read by `send` but never assigned inside `message.py` itself). -/
def setNoRetry (m : Message) (b : Bool) : Message :=
  { m with no_retry := some b }

/-- How `send` returns: each constructor is one distinct return/raise point
of the Python method.  `stuck` is the fuel-exhaustion sentinel of the
embedding; it is proved unreachable below. -/
inductive SendResult where
  | ok
  | droppedNoRetry
  | droppedSilent
  | overflowError
  | badRequestRaised
  | swallowedBadRequest
  | attributeError
  | stuck
deriving DecidableEq, Repr

/-- Observable events of one `send` invocation, in program order. -/
inductive Event where
  | transportAttempt (n : Nat)
  | logWarning
  | sleep (t : Nat)
  | acquireWrite
  | releaseWrite
deriving DecidableEq, Repr

/-- `Message.send(chat_id)`, translated line by line; `n` is the index of the
next transport attempt (the oracle argument), `writerHeld` the result of the
check `Message._lock.owner == Message._lock.WRITER`.  Returns the result, the
final object state, the next attempt index, and the event trace.  The fuel
argument only bounds the recursion depth for Lean's termination checker;
`sendAux_fuel_irrelevant` below shows the semantics does not depend on it. -/
def Message.sendAux (oracle : Nat → Outcome) (writerHeld : Bool) :
    Nat → Message → Nat → SendResult × Message × Nat × List Event
  | 0, m, n => (.stuck, m, n, [])
  | fuel + 1, m, n =>
    match m.no_retry with
    | none => (.attributeError, m, n, [])
    | some nr =>
      if nr ∧ 1 ≤ m.retries then
        (.droppedNoRetry, m, n, [.logWarning])
      else if 1 ≤ m.retries then
        (.droppedSilent, m, n, [])
      else if 3 ≤ m.retries then
        (.overflowError, m, n, [.logWarning])
      else
        match oracle n with
        | .success => (.ok, m, n + 1, [.transportAttempt n])
        | .retryAfter t =>
          let m' := { m with retries := m.retries + 1 }
          let cooldown :=
            if writerHeld then ([] : List Event)
            else [.acquireWrite, .sleep (t + 1), .releaseWrite]
          let r := Message.sendAux oracle writerHeld fuel m' (n + 1)
          (r.1, r.2.1, r.2.2.1,
            [Event.transportAttempt n, Event.logWarning] ++ cooldown ++ r.2.2.2)
        | .badRequest =>
          if nr then
            (.swallowedBadRequest, m, n + 1, [.transportAttempt n, .logWarning])
          else
            (.badRequestRaised, m, n + 1, [.transportAttempt n])
        | .networkError =>
          let m' := { m with retries := m.retries + 1 }
          let r := Message.sendAux oracle writerHeld fuel m' (n + 1)
          (r.1, r.2.1, r.2.2.1,
            [Event.transportAttempt n, Event.logWarning, Event.sleep 1] ++ r.2.2.2)

/-- `Message.send(chat_id)`: the fuel `m.retries + 2` always suffices (the
recursive call's guard fires at once because `retries` was incremented). -/
def Message.send (oracle : Nat → Outcome) (writerHeld : Bool) (m : Message) (n : Nat) :
    SendResult × Message × Nat × List Event :=
  Message.sendAux oracle writerHeld (m.retries + 2) m n

/-- Recognizer for transport-attempt events. -/
def isAttempt : Event → Bool
  | .transportAttempt _ => true
  | _ => false

/-- Number of transport attempts recorded in a trace. -/
def attemptCount (evs : List Event) : Nat :=
  evs.countP isAttempt

/-- A `send` entered with `retries ≥ 1` returns at the guard before any
transport attempt: the object and attempt index are unchanged and at most a
warning is logged. -/
theorem sendAux_guard (oracle : Nat → Outcome) (w : Bool) (fuel : Nat)
    (m : Message) (n : Nat) (h : 1 ≤ m.retries) :
    Message.sendAux oracle w (fuel + 1) m n =
      match m.no_retry with
      | none => (.attributeError, m, n, [])
      | some nr =>
        if nr then (.droppedNoRetry, m, n, [.logWarning])
        else (.droppedSilent, m, n, []) := by
  cases hno : m.no_retry with
  | none => simp [Message.sendAux, hno]
  | some nr =>
    cases nr <;> simp [Message.sendAux, hno, h]

/-- The semantics of `sendAux` does not depend on the fuel once it is at
least 2: the fuel is a termination device, not part of the model. -/
theorem sendAux_fuel_irrelevant (oracle : Nat → Outcome) (w : Bool)
    (fuel : Nat) (m : Message) (n : Nat) :
    Message.sendAux oracle w (fuel + 2) m n = Message.sendAux oracle w 2 m n := by
  rcases Nat.lt_or_ge m.retries 1 with h0 | h1
  · have hr : m.retries = 0 := by omega
    cases hno : m.no_retry with
    | none => simp [Message.sendAux, hno]
    | some nr =>
      cases ho : oracle n with
      | success => cases nr <;> simp [Message.sendAux, hno, hr, ho]
      | retryAfter t =>
        have hg := sendAux_guard oracle w fuel { m with retries := m.retries + 1 } (n + 1)
          (by simp)
        have hg0 := sendAux_guard oracle w 0 { m with retries := m.retries + 1 } (n + 1)
          (by simp)
        cases nr <;>
          simp only [Message.sendAux, hno, hr, ho] <;>
          simp [hg, hg0, hno]
      | badRequest => cases nr <;> simp [Message.sendAux, hno, hr, ho]
      | networkError =>
        have hg := sendAux_guard oracle w fuel { m with retries := m.retries + 1 } (n + 1)
          (by simp)
        have hg0 := sendAux_guard oracle w 0 { m with retries := m.retries + 1 } (n + 1)
          (by simp)
        cases nr <;>
          simp only [Message.sendAux, hno, hr, ho] <;>
          simp [hg, hg0, hno]
  · rw [show fuel + 2 = (fuel + 1) + 1 from rfl,
      sendAux_guard oracle w (fuel + 1) m n h1,
      show (2 : Nat) = 1 + 1 from rfl, sendAux_guard oracle w 1 m n h1]

/-- The fuel-exhaustion sentinel never occurs: `send` always returns one of
the real outcomes of the Python method. -/
theorem send_not_stuck (oracle : Nat → Outcome) (w : Bool) (m : Message) (n : Nat) :
    ¬ (Message.send oracle w m n).1 = .stuck := by
  unfold Message.send
  rcases Nat.lt_or_ge m.retries 1 with h0 | h1
  · have hr : m.retries = 0 := by omega
    cases hno : m.no_retry with
    | none => simp [Message.sendAux, hr, hno]
    | some nr =>
      cases ho : oracle n with
      | success => cases nr <;> simp [Message.sendAux, hr, hno, ho]
      | retryAfter t =>
        have hg := sendAux_guard oracle w 0 { m with retries := m.retries + 1 } (n + 1)
          (by simp)
        cases hno2 : (some nr : Option Bool) <;> cases nr <;>
          simp only [Message.sendAux, hr, hno, ho] <;> simp [hg, hno]
      | badRequest => cases nr <;> simp [Message.sendAux, hr, hno, ho]
      | networkError =>
        have hg := sendAux_guard oracle w 0 { m with retries := m.retries + 1 } (n + 1)
          (by simp)
        cases nr <;> simp only [Message.sendAux, hr, hno, ho] <;> simp [hg, hno]
  · rw [show m.retries + 2 = (m.retries + 1) + 1 from rfl, sendAux_guard oracle w _ m n h1]
    cases hno : m.no_retry with
    | none => simp
    | some nr => cases nr <;> simp

/-- An oracle under which every transport attempt succeeds. -/
def allSuccess : Nat → Outcome := fun _ => .success

/-- An oracle under which every transport attempt raises a network error. -/
def allNetworkError : Nat → Outcome := fun _ => .networkError

/-- An oracle under which every transport attempt raises `BadRequest`. -/
def allBadRequest : Nat → Outcome := fun _ => .badRequest

/-- An oracle under which every transport attempt raises `RetryAfter(5)`. -/
def allRetryAfter5 : Nat → Outcome := fun _ => .retryAfter 5

/-- C5: on a permanent client-side error (`BadRequest`) at a unit's first
attempt, `send` makes exactly one transport attempt; if `no_retry` is set it
logs a warning and returns normally, otherwise the error propagates to the
caller unchanged; in neither case is the attempt retried or the retry
counter incremented (the object is returned unchanged). -/
theorem send_badRequest (oracle : Nat → Outcome) (w : Bool) (m : Message) (n : Nat)
    (nr : Bool) (hno : m.no_retry = some nr) (h0 : m.retries = 0)
    (hb : oracle n = .badRequest) :
    Message.send oracle w m n =
      ((if nr then .swallowedBadRequest else .badRequestRaised), m, n + 1,
        if nr then [.transportAttempt n, .logWarning] else [.transportAttempt n]) := by
  unfold Message.send
  cases nr <;> simp [Message.sendAux, hno, h0, hb]

/-- C5 witness: concrete instances of `send_badRequest`, one per polarity of
`no_retry`. -/
theorem send_badRequest_witness :
    (setNoRetry (mkMessageDefault none .noMedia) true).no_retry = some true ∧
    Message.send allBadRequest false (setNoRetry (mkMessageDefault none .noMedia) true) 0 =
      (.swallowedBadRequest, setNoRetry (mkMessageDefault none .noMedia) true, 1,
        [.transportAttempt 0, .logWarning]) ∧
    Message.send allBadRequest false (setNoRetry (mkMessageDefault none .noMedia) false) 0 =
      (.badRequestRaised, setNoRetry (mkMessageDefault none .noMedia) false, 1,
        [.transportAttempt 0]) :=
  ⟨rfl,
    by simpa using
      send_badRequest allBadRequest false (setNoRetry (mkMessageDefault none .noMedia) true)
        0 true rfl rfl rfl,
    by simpa using
      send_badRequest allBadRequest false (setNoRetry (mkMessageDefault none .noMedia) false)
        0 false rfl rfl rfl⟩

/-- C6: on a rate-limit signal `RetryAfter(t)` at a unit's first attempt,
`send` logs the condition, increments `retries` by exactly 1, and — when the
lock-owner check reports the write lock not held — acquires the write lock,
sleeps `t + 1`, and releases it; the release appears in the trace before any
event of the recursive `send` re-invocation (whose guard then returns, with
one more warning logged when `no_retry` is set). -/
theorem send_retryAfter (oracle : Nat → Outcome) (w : Bool) (m : Message) (n : Nat)
    (nr : Bool) (t : Nat) (hno : m.no_retry = some nr) (h0 : m.retries = 0)
    (hra : oracle n = .retryAfter t) :
    Message.send oracle w m n =
      ((if nr then .droppedNoRetry else .droppedSilent),
        { m with retries := 1 }, n + 1,
        [.transportAttempt n, .logWarning]
          ++ (if w then [] else [.acquireWrite, .sleep (t + 1), .releaseWrite])
          ++ (if nr then [.logWarning] else [])) := by
  unfold Message.send
  have hg := sendAux_guard oracle w 0 { m with retries := m.retries + 1 } (n + 1) (by simp)
  cases nr <;> cases w <;>
    simp only [h0, Message.sendAux, hno, hra] <;> simp [hg, hno, h0]

/-- C6 witness: a concrete instance of `send_retryAfter` with the write lock
not already held. -/
theorem send_retryAfter_witness :
    (setNoRetry (mkMessageDefault none .noMedia) false).retries = 0 ∧
    Message.send allRetryAfter5 false (setNoRetry (mkMessageDefault none .noMedia) false) 0 =
      (.droppedSilent,
        { setNoRetry (mkMessageDefault none .noMedia) false with retries := 1 }, 1,
        [.transportAttempt 0, .logWarning, .acquireWrite, .sleep 6, .releaseWrite]) :=
  ⟨rfl,
    by simpa using
      send_retryAfter allRetryAfter5 false (setNoRetry (mkMessageDefault none .noMedia) false)
        0 false 5 rfl rfl rfl⟩

/-- C7: on a transient network error at a unit's first attempt, `send` logs a
warning, increments `retries` by exactly 1, sleeps exactly 1 time unit, and
re-invokes `send` on the same unit (whose guard then returns, with one more
warning logged when `no_retry` is set). -/
theorem send_networkError (oracle : Nat → Outcome) (w : Bool) (m : Message) (n : Nat)
    (nr : Bool) (hno : m.no_retry = some nr) (h0 : m.retries = 0)
    (hne : oracle n = .networkError) :
    Message.send oracle w m n =
      ((if nr then .droppedNoRetry else .droppedSilent),
        { m with retries := 1 }, n + 1,
        [.transportAttempt n, .logWarning, .sleep 1]
          ++ (if nr then [.logWarning] else [])) := by
  unfold Message.send
  have hg := sendAux_guard oracle w 0 { m with retries := m.retries + 1 } (n + 1) (by simp)
  cases nr <;> simp only [h0, Message.sendAux, hno, hne] <;> simp [hg, hno, h0]

/-- C7 witness: a concrete instance of `send_networkError`. -/
theorem send_networkError_witness :
    (setNoRetry (mkMessageDefault none .noMedia) false).retries = 0 ∧
    Message.send allNetworkError false (setNoRetry (mkMessageDefault none .noMedia) false) 0 =
      (.droppedSilent,
        { setNoRetry (mkMessageDefault none .noMedia) false with retries := 1 }, 1,
        [.transportAttempt 0, .logWarning, .sleep 1]) :=
  ⟨rfl,
    by simpa using
      send_networkError allNetworkError false (setNoRetry (mkMessageDefault none .noMedia) false)
        0 false rfl rfl rfl⟩

/-- C1 evaluation at the failing input: a unit with `no_retry = false` facing
only transient network errors makes exactly one transport attempt and returns
silently — the recursive re-invocation hits the `retries >= 1` guard, and the
`retries >= 3` branch (the budget-exhaustion `OverflowError`) is dead code.
A further external `send` on the resulting unit makes no attempt either, so
no 3rd recoverable failure, and no `OverflowError`, can ever occur. -/
theorem send_recoverable_budget_eval :
    Message.send allNetworkError false (setNoRetry (mkMessageDefault none .noMedia) false) 0 =
      (.droppedSilent, ⟨none, .noMedia, some "HTML", 1, some false⟩, 1,
        [.transportAttempt 0, .logWarning, .sleep 1]) ∧
    Message.send allNetworkError false ⟨none, .noMedia, some "HTML", 1, some false⟩ 1 =
      (.droppedSilent, ⟨none, .noMedia, some "HTML", 1, some false⟩, 1, []) := by
  constructor <;> rfl

/-- C3 evaluation at the failing input: `__init__` does not assign the
`no_retry` attribute, so a freshly constructed unit's `send` raises
`AttributeError` at the drop guard before any transport attempt. -/
theorem send_fresh_attributeError :
    (mkMessageDefault none .noMedia).no_retry = none ∧
    Message.send allSuccess false (mkMessageDefault none .noMedia) 0 =
      (.attributeError, mkMessageDefault none .noMedia, 0, []) := by
  constructor <;> rfl

/-- Shared helper: a `send` entered with `retries ≥ 1` makes no transport
attempt and leaves the object unchanged. -/
theorem send_guard_noop (oracle : Nat → Outcome) (w : Bool) (m : Message) (n : Nat)
    (h : 1 ≤ m.retries) :
    attemptCount (Message.send oracle w m n).2.2.2 = 0 ∧
    (Message.send oracle w m n).2.1 = m := by
  unfold Message.send
  rw [show m.retries + 2 = (m.retries + 1) + 1 from rfl, sendAux_guard oracle w _ m n h]
  cases hno : m.no_retry with
  | none => simp [attemptCount]
  | some nr => cases nr <;> simp [attemptCount, isAttempt]

/-- C4 (amended): once a unit's retry counter has reached 1 (any dropped or
terminal unit), every further `send` performs no transport call and leaves
the object unchanged.  (A successfully sent unit keeps `retries = 0` and is
not covered: see the counterexample.) -/
theorem send_noop_after_retry (oracle : Nat → Outcome) (w : Bool) (m : Message) (n : Nat)
    (h : 1 ≤ m.retries) :
    attemptCount (Message.send oracle w m n).2.2.2 = 0 ∧
    (Message.send oracle w m n).2.1 = m :=
  send_guard_noop oracle w m n h

/-- C4 witness: a concrete unit with `retries = 1` is a no-op on `send`. -/
theorem send_noop_after_retry_witness :
    1 ≤ (⟨none, .noMedia, some "HTML", 1, some false⟩ : Message).retries ∧
    attemptCount
      (Message.send allSuccess false ⟨none, .noMedia, some "HTML", 1, some false⟩ 1).2.2.2 = 0 ∧
    (Message.send allSuccess false
      ⟨none, .noMedia, some "HTML", 1, some false⟩ 1).2.1 =
        ⟨none, .noMedia, some "HTML", 1, some false⟩ :=
  ⟨by decide,
    send_noop_after_retry allSuccess false ⟨none, .noMedia, some "HTML", 1, some false⟩ 1
      (by decide)⟩

/-- C4 counterexample: a unit that was successfully sent (its first `send`
returned `ok`) still has `retries = 0`, and a redundant second `send` does
perform another transport call — the claimed idempotence after success fails. -/
theorem send_after_success_not_noop :
    (Message.send allSuccess false (setNoRetry (mkMessageDefault none .noMedia) false) 0).1 =
      .ok ∧
    attemptCount
      (Message.send allSuccess false
        (Message.send allSuccess false
          (setNoRetry (mkMessageDefault none .noMedia) false) 0).2.1 1).2.2.2 = 1 := by
  constructor <;> rfl

/-- C9: `send` always terminates, with recursion depth at most 1: every
invocation makes at most one transport attempt, and an invocation starting
with `retries ≥ 1` (as every recursive re-invocation does, the counter having
been incremented first) makes none at all. -/
theorem send_attempt_bound (oracle : Nat → Outcome) (w : Bool) (m : Message) (n : Nat) :
    attemptCount (Message.send oracle w m n).2.2.2 ≤ 1 ∧
    (m.retries = 0 ∨ attemptCount (Message.send oracle w m n).2.2.2 = 0) := by
  rcases Nat.lt_or_ge m.retries 1 with h0 | h1
  · have hr : m.retries = 0 := by omega
    refine ⟨?_, Or.inl hr⟩
    unfold Message.send
    cases hno : m.no_retry with
    | none => simp [Message.sendAux, hr, hno, attemptCount]
    | some nr =>
      have hg := sendAux_guard oracle w 0 { m with retries := m.retries + 1 } (n + 1)
        (by simp)
      cases ho : oracle n with
      | success =>
        cases nr <;> simp [Message.sendAux, hr, hno, ho, attemptCount, isAttempt]
      | retryAfter t =>
        cases nr <;> cases w <;> simp only [Message.sendAux, hr, hno, ho] <;>
          simp [hg, hno, attemptCount, isAttempt]
      | badRequest =>
        cases nr <;> simp [Message.sendAux, hr, hno, ho, attemptCount, isAttempt]
      | networkError =>
        cases nr <;> simp only [Message.sendAux, hr, hno, ho] <;>
          simp [hg, hno, attemptCount, isAttempt]
  · have h := send_guard_noop oracle w m n h1
    exact ⟨by omega, Or.inr h.1⟩

/-- One item of a media-group payload (`telegram.InputMedia*`): the medium it
wraps, plus the mutable `caption` and `parse_mode` attributes that
`MediaGroupMsg._send` assigns on the first element. -/
structure InputMedium where
  mediumId : Nat
  caption : Option String
  parse_mode : Option String
deriving DecidableEq, Repr

/-- Modelled from the spec: `medium.py` is not among the given sources.  Per
§6, a media reference exposes a capability to convert to the transport's wire
representation for a single group item; the resulting item wraps the handle
and carries no caption or formatting mode of its own. -/
def telegramize (m : Nat) : InputMedium :=
  ⟨m, none, none⟩

/-- Modelled from the spec: `medium.py` is not among the given sources.  Per
§6, a media reference resolves to a fetchable URL; handles being opaque, the
URL is represented by the handle itself. -/
def get_url (m : Nat) : Nat :=
  m

/-- The transport calls issued by the kind-specific `_send` overrides. -/
inductive TransportCall where
  | sendMessage (chat_id : Int) (text : Option String) (parse_mode : Option String)
      (disable_web_page_preview : Bool)
  | sendPhoto (chat_id : Int) (url : Nat) (caption : Option String) (parse_mode : Option String)
  | sendVideo (chat_id : Int) (url : Nat) (caption : Option String) (parse_mode : Option String)
  | sendAnimation (chat_id : Int) (url : Nat) (caption : Option String)
      (parse_mode : Option String)
  | sendMediaGroup (chat_id : Int) (media : List InputMedium)
deriving DecidableEq, Repr

/-- `TextMsg._send`: `env.bot.send_message(chat_id, self.text,
parse_mode=self.parse_mode, disable_web_page_preview=True)`. -/
def TextMsg_send (m : Message) (chat_id : Int) : TransportCall :=
  .sendMessage chat_id m.text m.parse_mode true

/-- `PhotoMsg._send`: `env.bot.send_photo(chat_id, self.media.get_url(),
caption=self.text, parse_mode=self.parse_mode)`; `none` models the
`AttributeError` a non-single `media` field raises at `get_url`. -/
def PhotoMsg_send (m : Message) (chat_id : Int) : Option TransportCall :=
  match m.media with
  | .single x => some (.sendPhoto chat_id (get_url x) m.text m.parse_mode)
  | _ => none

/-- `VideoMsg._send`: same shape as `PhotoMsg._send`, video call. -/
def VideoMsg_send (m : Message) (chat_id : Int) : Option TransportCall :=
  match m.media with
  | .single x => some (.sendVideo chat_id (get_url x) m.text m.parse_mode)
  | _ => none

/-- `AnimationMsg._send`: same shape as `PhotoMsg._send`, animation call. -/
def AnimationMsg_send (m : Message) (chat_id : Int) : Option TransportCall :=
  match m.media with
  | .single x => some (.sendAnimation chat_id (get_url x) m.text m.parse_mode)
  | _ => none

/-- `MediaGroupMsg._send`: maps `telegramize` over `self.media`, assigns
`caption = self.text` and `parse_mode = self.parse_mode` on element 0, then
calls `send_media_group`; `none` models the exceptions raised when `media` is
not a sequence or is empty (`media_list[0]` would raise `IndexError`). -/
def MediaGroupMsg_send (m : Message) (chat_id : Int) : Option TransportCall :=
  match m.media with
  | .multiple ms =>
    match ms.map telegramize with
    | [] => none
    | first :: rest =>
      some (.sendMediaGroup chat_id
        ({ first with caption := m.text, parse_mode := m.parse_mode } :: rest))
  | _ => none

/-- C8: for a media-group unit with a non-empty media sequence, the transport
call receives the items in their original order, the unit's text and
formatting mode are attached to the first item only, and every other item
carries no caption and no formatting mode. -/
theorem mediaGroup_caption_first (t pm : Option String) (x : Nat) (ms : List Nat)
    (chat_id : Int) :
    MediaGroupMsg_send (mkMessage t (.multiple (x :: ms)) pm) chat_id =
      some (.sendMediaGroup chat_id (⟨x, t, pm⟩ :: ms.map telegramize)) ∧
    (ms.map telegramize).map InputMedium.mediumId = ms ∧
    (ms.map telegramize).all
      (fun im => im.caption.isNone && im.parse_mode.isNone) = true := by
  refine ⟨rfl, ?_, ?_⟩
  · induction ms with
    | nil => rfl
    | cons a as ih => simpa [telegramize] using ih
  · simp [List.all_eq_true, telegramize]

/-- C10: a unit constructed without an explicit formatting mode gets the
markup dialect `HTML` (not `None`), and that default is passed verbatim to
every kind's transport call. -/
theorem default_parse_mode_html (t : Option String) (md : MediaField) (x : Nat)
    (ms : List Nat) (chat_id : Int) :
    (mkMessageDefault t md).parse_mode = some "HTML" ∧
    TextMsg_send (mkMessageDefault t md) chat_id =
      .sendMessage chat_id t (some "HTML") true ∧
    PhotoMsg_send (mkMessageDefault t (.single x)) chat_id =
      some (.sendPhoto chat_id x t (some "HTML")) ∧
    VideoMsg_send (mkMessageDefault t (.single x)) chat_id =
      some (.sendVideo chat_id x t (some "HTML")) ∧
    AnimationMsg_send (mkMessageDefault t (.single x)) chat_id =
      some (.sendAnimation chat_id x t (some "HTML")) ∧
    MediaGroupMsg_send (mkMessageDefault t (.multiple (x :: ms))) chat_id =
      some (.sendMediaGroup chat_id (⟨x, t, some "HTML"⟩ :: ms.map telegramize)) := by
  exact ⟨rfl, rfl, rfl, rfl, rfl, rfl⟩
